import Mathlib

/-!
Shallow embedding of the pomodoro terminal timer (src/main.rs) and proofs
about its control loop, state machine, interval arithmetic and rendering.

Modelling conventions:
* `std::time::Duration` is a count of nanoseconds (`Nat`); `as_secs` is
  integer division by 10^9, matching Rust's flooring behaviour.
* The `u8` counters of `StateMachine` are `Nat` with `% 256` applied at the
  one place the source increments them (`+=` on a `u8` wraps / aborts at
  256; along reachable paths the counters stay far below 256).
* Fallible external calls (`rodio::default_output_device`, `Decoder::new`)
  are `.unwrap()`ed in the source, so `play_sound` is modelled as a
  function of an `AudioEnv` that returns `none` exactly when one of those
  unwraps panics.
* One iteration of the `loop` in `main` is the function `tick`; it returns
  the mutated state together with an `Outcome` saying whether the body ran
  to completion (`continued`), executed `break` (`brk`), or panicked
  (`panicked`, from an `unwrap` in `play_sound` or the `unreachable!()` arm
  of the render `match`), plus the lines written to stdout (terminal
  control sequences such as clear-line are omitted from the text) and
  whether a notification sound was actually started this tick.
-/

namespace PomodoroRs

/-- `std::time::Duration`, modelled as a count of nanoseconds. -/
abbrev Duration := Nat

/-- `Duration::from_secs`. -/
def durationFromSecs (s : Nat) : Duration := s * 1000000000

/-- `Duration::as_secs` (floors to whole seconds). -/
def durationAsSecs (d : Duration) : Nat := d / 1000000000

/-- The `termion::event::Key` values `main.rs` distinguishes: `Key::Char c`,
`Key::Ctrl c`, and every other key event (arrows, function keys, ...). -/
inductive Key where
  | char (c : Char)
  | ctrl (c : Char)
  | otherKey
deriving DecidableEq, Repr

/-- The `Mode` enum of `main.rs` (lines 23-32). -/
inductive Mode where
  | EnteringPomodoro
  | Pomodoro
  | PomodoroEnded
  | EnteringBreak
  | Break
  | BreakEnded
  | End
deriving DecidableEq, Repr

/-- The `StateMachine` struct of `main.rs` (lines 34-39); the `u8` counters
are `Nat` kept below 256 by the wrap-around applied at each increment. -/
structure StateMachine where
  pomodoro_count : Nat
  break_count : Nat
  max_pomodoros : Nat
  mode : Mode
deriving DecidableEq, Repr

namespace StateMachine

/-- `StateMachine::new` (lines 42-49). -/
def new (max_pomodoros : Nat) : StateMachine :=
  { pomodoro_count := 1, break_count := 1, max_pomodoros := max_pomodoros,
    mode := .Pomodoro }

/-- `StateMachine::next_state` (lines 51-73). -/
def next_state (s : StateMachine) : StateMachine :=
  match s.mode with
  | .EnteringPomodoro => { s with mode := .Pomodoro }
  | .Pomodoro =>
      if s.pomodoro_count = s.max_pomodoros then { s with mode := .End }
      else { s with mode := .PomodoroEnded }
  | .PomodoroEnded =>
      { s with pomodoro_count := (s.pomodoro_count + 1) % 256,
               mode := .EnteringBreak }
  | .EnteringBreak => { s with mode := .Break }
  | .Break => { s with mode := .BreakEnded }
  | .BreakEnded =>
      { s with break_count := (s.break_count + 1) % 256,
               mode := .EnteringPomodoro }
  | .End => s

end StateMachine

/-- The `Interval` struct of `main.rs` (lines 76-79). -/
structure Interval where
  elapsed : Duration
  duration : Duration
deriving DecidableEq, Repr

namespace Interval

/-- `Interval::from_secs` (lines 82-87). -/
def from_secs (secs : Nat) : Interval :=
  { elapsed := 0, duration := durationFromSecs secs }

/-- `Interval::has_ended` (lines 89-91): `self.elapsed >= self.duration`. -/
def has_ended (i : Interval) : Bool := decide (i.duration ≤ i.elapsed)

/-- `SubAssign<Duration> for Interval` (lines 94-99): counts up on
`elapsed` because Rust `Duration` cannot be negative. -/
def sub_assign (i : Interval) (rhs : Duration) : Interval :=
  { i with elapsed := i.elapsed + rhs }

/-- Rust's `{:02}` format: zero-pad to a minimum width of two digits. -/
def pad2 (n : Nat) : String := if n < 10 then "0" ++ toString n else toString n

/-- `Display for Interval` (lines 101-111). -/
def fmt (i : Interval) : String :=
  let secs := if i.duration ≤ i.elapsed then 0
              else durationAsSecs (i.duration - i.elapsed)
  pad2 (secs / 60) ++ ":" ++ pad2 (secs % 60)

end Interval

/-- Outcome of the external audio calls inside `play_sound`:
whether `rodio::default_output_device()` returns a device and whether
`rodio::Decoder::new` succeeds on the embedded clip. -/
structure AudioEnv where
  deviceOk : Bool
  decodeOk : Bool
deriving DecidableEq, Repr

/-- `play_sound` (lines 131-137). The source `.unwrap()`s the device and
the decoder, so a failure of either is a panic, modelled as `none`;
`some ()` means playback was started (fire-and-forget). -/
def play_sound (env : AudioEnv) : Option Unit :=
  if env.deviceOk then
    if env.decodeOk then some ()
    else none
  else none

/-- The session configuration `main` computes from the CLI options:
interval lengths in whole seconds (`opt.x_duration as u64 * 60`). -/
structure Config where
  pomodoro_duration : Nat
  break_duration : Nat
deriving DecidableEq, Repr

/-- The mutable state of the control loop in `main` (lines 166-169). -/
structure LoopState where
  state_machine : StateMachine
  interval : Interval
  paused : Bool
  acked : Bool
deriving DecidableEq, Repr

/-- The loop state as `main` initialises it (lines 166-169). -/
def initLoopState (cfg : Config) (max_pomodoros : Nat) : LoopState :=
  { state_machine := StateMachine.new max_pomodoros
  , interval := Interval.from_secs cfg.pomodoro_duration
  , paused := false
  , acked := false }

/-- What `rx.recv_timeout` produced this iteration. -/
inductive Recv where
  | key (k : Key)
  | timeout
  | disconnected
deriving DecidableEq, Repr

/-- The per-iteration environment: the channel read, the wall-clock time
`start.elapsed()` observed at line 195, and the audio environment. -/
structure TickInput where
  recv : Recv
  elapsed_since_start : Duration
  audio : AudioEnv
deriving DecidableEq, Repr

/-- How one iteration of the loop body finished. -/
inductive Outcome where
  | continued
  | brk
  | panicked
deriving DecidableEq, Repr

/-- Result of one loop iteration: state after the body, how the body
finished, the text written to stdout (control sequences omitted), and
whether a notification sound was started. -/
structure TickResult where
  state : LoopState
  outcome : Outcome
  outputs : List String
  notified : Bool
deriving DecidableEq, Repr

/-- The input `match` at the top of the loop body (lines 172-191), arms in
source order with guards checked in order. Returns the state after the
match, whether the arm executed `break`, and any message written. -/
def inputStep (s : LoopState) (r : Recv) : LoopState × Bool × List String :=
  match r with
  | .key k =>
      if s.state_machine.mode = .PomodoroEnded then ({ s with acked := true }, false, [])
      else if s.state_machine.mode = .BreakEnded then ({ s with acked := true }, false, [])
      else if s.state_machine.mode = .End then (s, true, [])
      else if k = .char 'q' ∨ k = .ctrl 'c' then (s, true, [])
      else if k = .char 'p' then ({ s with paused := !s.paused }, false, [])
      else (s, false, [])
  | .disconnected => (s, false, ["System error. Shutting down.\r\n"])
  | .timeout => (s, false, [])

/-- The elapsed-time accumulation (lines 193-196). -/
def accumStep (s : LoopState) (e : Duration) : LoopState :=
  if s.paused = false ∧
      (s.state_machine.mode = .Pomodoro ∨ s.state_machine.mode = .Break) then
    { s with interval := s.interval.sub_assign e }
  else s

/-- The transition `match` (lines 200-226). Returns the state after the
match, whether a notification sound was started, and whether the arm
panicked (an `unwrap` inside `play_sound`). -/
def transitionStep (cfg : Config) (audio : AudioEnv) (s : LoopState) :
    LoopState × Bool × Bool :=
  match s.state_machine.mode with
  | .EnteringPomodoro =>
      ({ s with interval := Interval.from_secs cfg.pomodoro_duration,
                state_machine := s.state_machine.next_state }, false, false)
  | .Pomodoro =>
      if s.interval.has_ended then
        match play_sound audio with
        | some _ => ({ s with state_machine := s.state_machine.next_state }, true, false)
        | none => (s, false, true)
      else (s, false, false)
  | .PomodoroEnded =>
      if s.acked then
        ({ s with acked := false, state_machine := s.state_machine.next_state },
         false, false)
      else (s, false, false)
  | .EnteringBreak =>
      ({ s with interval := Interval.from_secs cfg.break_duration,
                state_machine := s.state_machine.next_state }, false, false)
  | .Break =>
      if s.interval.has_ended then
        match play_sound audio with
        | some _ => ({ s with state_machine := s.state_machine.next_state }, true, false)
        | none => (s, false, true)
      else (s, false, false)
  | .BreakEnded =>
      if s.acked then
        ({ s with acked := false, state_machine := s.state_machine.next_state },
         false, false)
      else (s, false, false)
  | .End => (s, false, false)

/-- The render `match` (lines 232-296). `none` models the `unreachable!()`
catch-all arm, i.e. a panic. -/
def renderStep (s : LoopState) : Option String :=
  match s.state_machine.mode with
  | .Pomodoro =>
      if s.paused then
        some ("Pomodoro " ++ toString s.state_machine.pomodoro_count ++ ": "
              ++ s.interval.fmt ++ " (paused)\r")
      else
        some ("Pomodoro " ++ toString s.state_machine.pomodoro_count ++ ": "
              ++ s.interval.fmt ++ "\r")
  | .Break =>
      if s.paused then
        some ("Break " ++ toString s.state_machine.break_count ++ ": "
              ++ s.interval.fmt ++ " (paused)\r")
      else
        some ("Break " ++ toString s.state_machine.break_count ++ ": "
              ++ s.interval.fmt ++ "\r")
  | .PomodoroEnded => some "Pomodoro ended. Press key to begin break.\r"
  | .BreakEnded => some "Break ended. Press key to begin a new pomodoro.\r"
  | .End => some "Done. Press any key to end.\r"
  | .EnteringPomodoro => none
  | .EnteringBreak => none

/-- One iteration of the control loop in `main` (lines 170-298):
input match, elapsed accumulation, transition match, render match, in
source order, with `break` and panics cutting the body short. -/
def tick (cfg : Config) (s : LoopState) (inp : TickInput) : TickResult :=
  match inputStep s inp.recv with
  | (s1, true, outs) =>
      { state := s1, outcome := .brk, outputs := outs, notified := false }
  | (s1, false, outs) =>
      let s2 := accumStep s1 inp.elapsed_since_start
      match transitionStep cfg inp.audio s2 with
      | (s3, _, true) =>
          { state := s3, outcome := .panicked, outputs := outs, notified := false }
      | (s3, notified, false) =>
          match renderStep s3 with
          | some line =>
              { state := s3, outcome := .continued, outputs := outs ++ [line],
                notified := notified }
          | none =>
              { state := s3, outcome := .panicked, outputs := outs,
                notified := notified }

/-- The `paused` flag as the accumulation check at line 193 sees it,
i.e. after the input match of the same iteration. -/
def pausedAfterInput (s : LoopState) (r : Recv) : Bool := (inputStep s r).1.paused

/-- `true` when this iteration reaches the transition match in `Pomodoro`
mode with an ended interval — the moment a focus interval ends. -/
def focusEndsNow (s : LoopState) (inp : TickInput) : Prop :=
  s.state_machine.mode = .Pomodoro ∧
  (inputStep s inp.recv).2.1 = false ∧
  (accumStep (inputStep s inp.recv).1 inp.elapsed_since_start).interval.has_ended = true

/-- Spec §4.3: displayed remaining seconds, `max(0, duration − elapsed)`
floored to whole seconds (truncated `Nat` subtraction is the `max(0, ·)`). -/
def specRemainingSecs (i : Interval) : Nat := durationAsSecs (i.duration - i.elapsed)

/-- Spec §4.3: remaining time formatted as zero-padded `MM:SS`. -/
def specMMSS (secs : Nat) : String :=
  Interval.pad2 (secs / 60) ++ ":" ++ Interval.pad2 (secs % 60)

/-- A sequence of per-tick elapsed increments applied to an interval, as
the accumulation `interval -= start.elapsed()` does tick after tick. -/
def applyElapses (i : Interval) (xs : List Duration) : Interval :=
  xs.foldl Interval.sub_assign i

theorem applyElapses_spec (i : Interval) (xs : List Duration) :
    (applyElapses i xs).elapsed = i.elapsed + xs.sum ∧
    (applyElapses i xs).duration = i.duration := by
  induction xs generalizing i with
  | nil => simp [applyElapses]
  | cons x xs ih =>
      have h := ih (i.sub_assign x)
      simp only [applyElapses, List.foldl_cons] at h ⊢
      rw [h.1, h.2]
      refine ⟨?_, by simp [Interval.sub_assign]⟩
      simp [Interval.sub_assign, List.sum_cons, Nat.add_assoc]

/-- C7: the interval is ended after a sequence of unpaused increments
exactly when their cumulative sum has reached the configured duration —
never earlier, with an inclusive boundary (`elapsed == duration` counts as
ended), and a zero duration is ended on the first tick that observes it. -/
theorem interval_ends_exactly_at_threshold (D : Nat) (xs : List Duration) :
    ((applyElapses (Interval.from_secs D) xs).has_ended = true ↔
      durationFromSecs D ≤ xs.sum) ∧
    (∀ x : Nat, (Interval.mk x x).has_ended = true) ∧
    (Interval.from_secs 0).has_ended = true := by
  refine ⟨?_, fun x => by simp [Interval.has_ended], by decide⟩
  have h := applyElapses_spec (Interval.from_secs D) xs
  simp only [Interval.has_ended, h.1, h.2, decide_eq_true_eq]
  simp [Interval.from_secs]

/-- C10: the displayed remaining time is `max(0, duration − elapsed)`
floored to whole seconds and formatted as zero-padded `MM:SS`; an exhausted
interval renders as "00:00" and 90 remaining seconds render as "01:30". -/
theorem display_remaining_max0_mmss (i : Interval) :
    Interval.fmt i = specMMSS (specRemainingSecs i) ∧
    Interval.fmt { elapsed := 5000000000, duration := 3000000000 } = "00:00" ∧
    Interval.fmt (Interval.from_secs 90) = "01:30" := by
  refine ⟨?_, by decide, by decide⟩
  simp only [Interval.fmt, specMMSS, specRemainingSecs, durationAsSecs]
  split_ifs with h
  · rw [Nat.sub_eq_zero_of_le h]
  · rfl

/-- C1: acknowledging an ended focus interval does not reach `Break` on the
same tick: the code moves to the transient `EnteringBreak` mode (counter
incremented, interval not yet reset) and then the render match panics via
its `unreachable!()` catch-all. -/
theorem ack_tick_enters_transient_and_panics :
    let cfg : Config := { pomodoro_duration := 1500, break_duration := 240 }
    let s : LoopState :=
      { state_machine :=
          { pomodoro_count := 1, break_count := 1, max_pomodoros := 4,
            mode := .PomodoroEnded }
      , interval := { elapsed := 1500000000000, duration := 1500000000000 }
      , paused := false, acked := false }
    let r := tick cfg s
      { recv := .key .otherKey, elapsed_since_start := 0,
        audio := { deviceOk := true, decodeOk := true } }
    r.state.state_machine.mode = .EnteringBreak ∧
    r.state.state_machine.mode ≠ .Break ∧
    r.state.state_machine.pomodoro_count = 2 ∧
    r.state.interval = s.interval ∧
    r.outcome = .panicked := by decide

/-- C2: the `unreachable!()` catch-all of the render match is reached from
the initial state in two ticks: the focus interval ends (tick 1), any key
acknowledges it (tick 2), leaving the mode at `EnteringBreak` when the
render match runs, so the loop panics. -/
theorem render_unreachable_is_reached :
    let cfg : Config := { pomodoro_duration := 1, break_duration := 1 }
    let s0 := initLoopState cfg 2
    let r1 := tick cfg s0
      { recv := .timeout, elapsed_since_start := 1000000000,
        audio := { deviceOk := true, decodeOk := true } }
    let r2 := tick cfg r1.state
      { recv := .key (.char ' '), elapsed_since_start := 500000000,
        audio := { deviceOk := true, decodeOk := true } }
    r1.outcome = .continued ∧
    r1.state.state_machine.mode = .PomodoroEnded ∧
    r2.state.state_machine.mode = .EnteringBreak ∧
    renderStep r2.state = none ∧
    r2.outcome = .panicked := by decide

/-- C4: when the input channel is disconnected the loop body writes
"System error. Shutting down." but does not break: the iteration completes
normally and the next iteration does the same, so the loop never exits and
the cursor-restore after the loop is never reached. -/
theorem disconnected_does_not_exit_loop :
    let cfg : Config := { pomodoro_duration := 1500, break_duration := 240 }
    let s0 := initLoopState cfg 4
    let inp : TickInput :=
      { recv := .disconnected, elapsed_since_start := 0,
        audio := { deviceOk := true, decodeOk := true } }
    let r1 := tick cfg s0 inp
    let r2 := tick cfg r1.state inp
    r1.outputs.head? = some "System error. Shutting down.\r\n" ∧
    r1.outcome = .continued ∧
    r2.outputs.head? = some "System error. Shutting down.\r\n" ∧
    r2.outcome = .continued := by decide

/-- C3 counterexample: in `PomodoroEnded` (FocusEndedAwaitingAck) the `q`
key does not terminate the loop: the any-key acknowledgment arm matches
first, so `q` fires the acked transition (counter updated, mode changed). -/
theorem quit_in_awaiting_ack_acts_as_ack :
    let cfg : Config := { pomodoro_duration := 1500, break_duration := 240 }
    let s : LoopState :=
      { state_machine :=
          { pomodoro_count := 1, break_count := 1, max_pomodoros := 4,
            mode := .PomodoroEnded }
      , interval := { elapsed := 1500000000000, duration := 1500000000000 }
      , paused := false, acked := false }
    let r := tick cfg s
      { recv := .key (.char 'q'), elapsed_since_start := 0,
        audio := { deviceOk := true, decodeOk := true } }
    r.outcome ≠ .brk ∧
    r.state.state_machine.mode = .EnteringBreak ∧
    r.state.state_machine.pomodoro_count = 2 := by decide

/-- C3 amended: a quit key (`q` or Ctrl-c) terminates the loop immediately
with no transition, counter update, output or notification when the mode is
`Pomodoro` (Focus), `Break` or `End` (Done); when the mode is
`PomodoroEnded` or `BreakEnded` the quit key is consumed exactly like any
other key — as an acknowledgment — and does not terminate the loop. -/
theorem quit_key_semantics (cfg : Config) (s : LoopState) (e : Duration)
    (a : AudioEnv) (k : Key) (hk : k = .char 'q' ∨ k = .ctrl 'c') :
    ((s.state_machine.mode = .Pomodoro ∨ s.state_machine.mode = .Break ∨
        s.state_machine.mode = .End) →
      (tick cfg s { recv := .key k, elapsed_since_start := e, audio := a }).outcome
          = .brk ∧
      (tick cfg s { recv := .key k, elapsed_since_start := e, audio := a }).state = s ∧
      (tick cfg s { recv := .key k, elapsed_since_start := e, audio := a }).outputs = [] ∧
      (tick cfg s { recv := .key k, elapsed_since_start := e, audio := a }).notified
          = false) ∧
    ((s.state_machine.mode = .PomodoroEnded ∨ s.state_machine.mode = .BreakEnded) →
      tick cfg s { recv := .key k, elapsed_since_start := e, audio := a } =
        tick cfg s { recv := .key .otherKey, elapsed_since_start := e, audio := a } ∧
      (tick cfg s { recv := .key k, elapsed_since_start := e, audio := a }).outcome
          ≠ .brk) := by
  constructor
  · rintro (hm | hm | hm) <;> rcases hk with hk | hk <;>
      simp [tick, inputStep, hk, hm]
  · rintro (hm | hm) <;>
      constructor <;>
      simp [tick, inputStep, accumStep, transitionStep, renderStep,
        StateMachine.next_state, hm]

theorem quit_key_semantics_witness :
    (tick { pomodoro_duration := 1500, break_duration := 240 }
      { state_machine :=
          { pomodoro_count := 1, break_count := 1, max_pomodoros := 4,
            mode := .Pomodoro }
      , interval := { elapsed := 0, duration := 1500000000000 }
      , paused := false, acked := false }
      { recv := .key (.char 'q'), elapsed_since_start := 250000000,
        audio := { deviceOk := true, decodeOk := true } }).outcome = .brk :=
  ((quit_key_semantics _ _ _ _ _ (Or.inl rfl)).1 (Or.inl rfl)).1

/-- C6: while the mode is `PomodoroEnded`, `BreakEnded` or `End`, a `p`
keypress behaves exactly like any other key and leaves the paused flag
unchanged: pause toggling is effective only in `Pomodoro`/`Break`. -/
theorem pause_key_inert_when_not_timed (cfg : Config) (s : LoopState)
    (e : Duration) (a : AudioEnv) (k : Key)
    (h : s.state_machine.mode = .PomodoroEnded ∨
      s.state_machine.mode = .BreakEnded ∨ s.state_machine.mode = .End) :
    tick cfg s { recv := .key (.char 'p'), elapsed_since_start := e, audio := a } =
      tick cfg s { recv := .key k, elapsed_since_start := e, audio := a } ∧
    (tick cfg s
      { recv := .key (.char 'p'), elapsed_since_start := e, audio := a
        }).state.paused = s.paused := by
  rcases h with hm | hm | hm <;>
    constructor <;>
    simp [tick, inputStep, accumStep, transitionStep, renderStep,
      StateMachine.next_state, hm]

theorem pause_key_inert_witness :
    (tick { pomodoro_duration := 1500, break_duration := 240 }
      { state_machine :=
          { pomodoro_count := 1, break_count := 1, max_pomodoros := 4,
            mode := .End }
      , interval := { elapsed := 0, duration := 1500000000000 }
      , paused := false, acked := false }
      { recv := .key (.char 'p'), elapsed_since_start := 0,
        audio := { deviceOk := true, decodeOk := true } }).state.paused = false :=
  (pause_key_inert_when_not_timed _ _ _ _ (.char 'x') (Or.inr (Or.inr rfl))).2

theorem inputStep_core (s : LoopState) (r : Recv) :
    (inputStep s r).1.state_machine = s.state_machine ∧
    (inputStep s r).1.interval = s.interval := by
  cases r with
  | key k =>
      simp only [inputStep]
      split_ifs <;> simp
  | timeout => simp [inputStep]
  | disconnected => simp [inputStep]

theorem accumStep_core (s : LoopState) (e : Duration) :
    (accumStep s e).state_machine = s.state_machine ∧
    (accumStep s e).paused = s.paused ∧
    (accumStep s e).acked = s.acked ∧
    (accumStep s e).interval.duration = s.interval.duration ∧
    s.interval.elapsed ≤ (accumStep s e).interval.elapsed := by
  unfold accumStep
  split_ifs <;> simp [Interval.sub_assign]

theorem accumStep_elapsed (s : LoopState) (e : Duration) :
    (accumStep s e).interval.elapsed =
      (if s.paused = false ∧
          (s.state_machine.mode = .Pomodoro ∨ s.state_machine.mode = .Break)
        then s.interval.elapsed + e else s.interval.elapsed) := by
  unfold accumStep
  split_ifs <;> simp [Interval.sub_assign]

theorem transitionStep_interval (cfg : Config) (a : AudioEnv) (s : LoopState)
    (hm1 : s.state_machine.mode ≠ .EnteringPomodoro)
    (hm2 : s.state_machine.mode ≠ .EnteringBreak) :
    (transitionStep cfg a s).1.interval = s.interval := by
  unfold transitionStep
  cases h : s.state_machine.mode with
  | EnteringPomodoro => exact absurd h hm1
  | EnteringBreak => exact absurd h hm2
  | Pomodoro => split_ifs <;> cases play_sound a <;> simp
  | Break => split_ifs <;> cases play_sound a <;> simp
  | PomodoroEnded => split_ifs <;> simp
  | BreakEnded => split_ifs <;> simp
  | End => rfl

theorem tick_state_eq (cfg : Config) (s : LoopState) (inp : TickInput) :
    (tick cfg s inp).state =
      (if (inputStep s inp.recv).2.1 = true then (inputStep s inp.recv).1
       else (transitionStep cfg inp.audio
         (accumStep (inputStep s inp.recv).1 inp.elapsed_since_start)).1) := by
  unfold tick
  rcases h : inputStep s inp.recv with ⟨s1, b1, outs⟩
  cases b1
  · rcases h2 : transitionStep cfg inp.audio (accumStep s1 inp.elapsed_since_start)
      with ⟨s3, n, pan⟩
    cases pan
    · cases h3 : renderStep s3 <;> simp [h, h2, h3]
    · simp [h, h2]
  · simp [h]

/-- C5 counterexample: on the very tick a running focus interval crosses
its duration through elapsed-time accumulation, the loop panics when the
audio device cannot be acquired — the playback failure is fatal, not
reported-and-ignored. -/
theorem playback_failure_panics_tick :
    let cfg : Config := { pomodoro_duration := 1500, break_duration := 240 }
    let s : LoopState :=
      { state_machine :=
          { pomodoro_count := 1, break_count := 1, max_pomodoros := 4,
            mode := .Pomodoro }
      , interval := { elapsed := 1499000000000, duration := 1500000000000 }
      , paused := false, acked := false }
    let r := tick cfg s
      { recv := .timeout, elapsed_since_start := 1500000000,
        audio := { deviceOk := false, decodeOk := true } }
    s.interval.has_ended = false ∧
    r.outcome = .panicked ∧ r.notified = false := by decide

/-- C5 amended: a playback failure is fatal to the control loop: on any
tick that reaches the transition match in `Pomodoro`/`Break` mode with the
interval ended after this tick's elapsed-time accumulation — in particular
the tick on which a running interval first crosses its duration — a failure
of audio-device acquisition or clip decoding panics the `unwrap` inside
`play_sound`, aborting the loop body (no notification, no render, no next
tick). -/
theorem playback_failure_fatal (cfg : Config) (s : LoopState) (inp : TickInput)
    (hmode : s.state_machine.mode = .Pomodoro ∨ s.state_machine.mode = .Break)
    (hnb : (inputStep s inp.recv).2.1 = false)
    (hend : (accumStep (inputStep s inp.recv).1
      inp.elapsed_since_start).interval.has_ended = true)
    (haudio : inp.audio.deviceOk = false ∨ inp.audio.decodeOk = false) :
    (tick cfg s inp).outcome = .panicked ∧ (tick cfg s inp).notified = false := by
  obtain ⟨hsm1, hint1⟩ := inputStep_core s inp.recv
  have hacc := accumStep_core (inputStep s inp.recv).1 inp.elapsed_since_start
  have hmode2 :
      (accumStep (inputStep s inp.recv).1 inp.elapsed_since_start).state_machine.mode
        = s.state_machine.mode := by
    rw [hacc.1, hsm1]
  have hps : play_sound inp.audio = none := by
    rcases haudio with h | h <;>
      cases hdev : inp.audio.deviceOk <;>
      simp_all [play_sound]
  have ht : transitionStep cfg inp.audio
      (accumStep (inputStep s inp.recv).1 inp.elapsed_since_start) =
      (accumStep (inputStep s inp.recv).1 inp.elapsed_since_start, false, true) := by
    rcases hmode with hm | hm <;>
      · rw [hm] at hmode2
        simp [transitionStep, hmode2, hend, hps]
  rcases hr : inputStep s inp.recv with ⟨s1, b1, outs⟩
  rw [hr] at hnb ht
  simp only at hnb
  subst hnb
  simp [tick, hr, ht]

theorem playback_failure_fatal_witness :
    (tick { pomodoro_duration := 1500, break_duration := 240 }
      { state_machine :=
          { pomodoro_count := 1, break_count := 1, max_pomodoros := 4,
            mode := .Break }
      , interval := { elapsed := 239000000000, duration := 240000000000 }
      , paused := false, acked := false }
      { recv := .timeout, elapsed_since_start := 2000000000,
        audio := { deviceOk := true, decodeOk := false } }).outcome = .panicked :=
  (playback_failure_fatal _ _ _ (Or.inr rfl) (by decide) (by decide)
    (Or.inr rfl)).1

/-- C9: with the paused flag set (as observed at the accumulation check,
after the input match of the tick), a tick leaves the interval's elapsed
time unchanged regardless of the wall-clock time since the last tick; and
whenever elapsed changes at all, the tick was unpaused with the mode in
`Pomodoro`/`Break`. (The transient `Entering*` modes, which replace the
interval wholesale, are excluded; they never occur at the top of a loop
iteration.) -/
theorem paused_freezes_elapsed (cfg : Config) (s : LoopState) (inp : TickInput)
    (hm1 : s.state_machine.mode ≠ .EnteringPomodoro)
    (hm2 : s.state_machine.mode ≠ .EnteringBreak) :
    (pausedAfterInput s inp.recv = true →
      (tick cfg s inp).state.interval.elapsed = s.interval.elapsed) ∧
    ((tick cfg s inp).state.interval.elapsed ≠ s.interval.elapsed →
      pausedAfterInput s inp.recv = false ∧
      (s.state_machine.mode = .Pomodoro ∨ s.state_machine.mode = .Break)) := by
  obtain ⟨hsm1, hint1⟩ := inputStep_core s inp.recv
  have hst := tick_state_eq cfg s inp
  by_cases hb : (inputStep s inp.recv).2.1 = true
  · rw [if_pos hb] at hst
    rw [hst, hint1]
    exact ⟨fun _ => rfl, fun h => absurd rfl h⟩
  · rw [if_neg hb] at hst
    have hti := transitionStep_interval cfg inp.audio
      (accumStep (inputStep s inp.recv).1 inp.elapsed_since_start)
      (by rw [(accumStep_core _ _).1, hsm1]; exact hm1)
      (by rw [(accumStep_core _ _).1, hsm1]; exact hm2)
    have hae := accumStep_elapsed (inputStep s inp.recv).1 inp.elapsed_since_start
    rw [hsm1, hint1] at hae
    rw [hst, hti, hae]
    split_ifs with hcond
    · constructor
      · intro hp
        unfold pausedAfterInput at hp
        rw [hp] at hcond
        simp at hcond
      · intro _
        unfold pausedAfterInput
        exact hcond
    · exact ⟨fun _ => rfl, fun h => absurd rfl h⟩

theorem paused_freezes_elapsed_witness :
    (tick { pomodoro_duration := 1500, break_duration := 240 }
      { state_machine :=
          { pomodoro_count := 1, break_count := 1, max_pomodoros := 4,
            mode := .Pomodoro }
      , interval := { elapsed := 3000000000, duration := 1500000000000 }
      , paused := true, acked := false }
      { recv := .timeout, elapsed_since_start := 700000000,
        audio := { deviceOk := true, decodeOk := true }
        }).state.interval.elapsed = 3000000000 :=
  (paused_freezes_elapsed _ _ _ (by decide) (by decide)).1 (by decide)

theorem inputStep_brk (s : LoopState) (r : Recv)
    (h : (inputStep s r).2.1 = true) :
    (inputStep s r).1 = s ∧ s.state_machine.mode ≠ .PomodoroEnded := by
  cases r with
  | key k =>
      simp only [inputStep] at h ⊢
      split_ifs at h ⊢ <;> simp_all
  | timeout => simp [inputStep] at h
  | disconnected => simp [inputStep] at h

theorem transitionStep_count (cfg : Config) (a : AudioEnv) (s : LoopState) :
    (transitionStep cfg a s).1.state_machine.pomodoro_count =
      (if s.state_machine.mode = .PomodoroEnded ∧ s.acked = true
       then (s.state_machine.pomodoro_count + 1) % 256
       else s.state_machine.pomodoro_count) := by
  obtain ⟨⟨pc, bc, mp, mode⟩, iv, p, ak⟩ := s
  cases hps : play_sound a <;>
    cases mode <;> cases ak <;>
      simp only [transitionStep, StateMachine.next_state, hps] <;>
      split_ifs <;> simp_all

theorem transitionStep_End_iff (cfg : Config) (a : AudioEnv) (s : LoopState)
    (hps : play_sound a = some ()) (hm : s.state_machine.mode ≠ .End) :
    ((transitionStep cfg a s).1.state_machine.mode = .End ↔
      (s.state_machine.mode = .Pomodoro ∧ s.interval.has_ended = true ∧
        s.state_machine.pomodoro_count = s.state_machine.max_pomodoros)) := by
  obtain ⟨⟨pc, bc, mp, mode⟩, iv, p, ak⟩ := s
  cases mode <;> cases ak <;>
    simp only [transitionStep, StateMachine.next_state, hps] <;>
    first
      | (split_ifs <;> simp_all)
      | simp_all

theorem transitionStep_focus_ends (cfg : Config) (a : AudioEnv) (s : LoopState)
    (hm : s.state_machine.mode = .Pomodoro)
    (he : s.interval.has_ended = true) (hps : play_sound a = some ()) :
    transitionStep cfg a s =
      ({ s with state_machine := s.state_machine.next_state }, true, false) := by
  obtain ⟨⟨pc, bc, mp, mode⟩, iv, p, ak⟩ := s
  simp only at hm
  subst hm
  simp [transitionStep, he, hps]

/-- C8: the session starts with both counters at 1; the completed-focus
counter increases by exactly 1 on the acked exit from `PomodoroEnded`
(FocusEndedAwaitingAck) and on no other tick; and — while sound playback
succeeds — a tick lands in `End` (Done) exactly when a `Pomodoro` (Focus)
interval ends on that tick with the counter equal to the configured
maximum, a notification being played at that moment. -/
theorem focus_counter_and_done_iff (m : Nat) (cfg : Config) (s : LoopState)
    (inp : TickInput)
    (hc : s.state_machine.pomodoro_count < 255)
    (hdev : inp.audio.deviceOk = true) (hdec : inp.audio.decodeOk = true)
    (hmode : s.state_machine.mode ≠ .End) :
    ((StateMachine.new m).pomodoro_count = 1 ∧
      (StateMachine.new m).break_count = 1) ∧
    ((tick cfg s inp).state.state_machine.pomodoro_count =
      (if s.state_machine.mode = .PomodoroEnded ∧
          (inputStep s inp.recv).1.acked = true
       then s.state_machine.pomodoro_count + 1
       else s.state_machine.pomodoro_count)) ∧
    ((tick cfg s inp).state.state_machine.mode = .End ↔
      (focusEndsNow s inp ∧
        s.state_machine.pomodoro_count = s.state_machine.max_pomodoros)) ∧
    (focusEndsNow s inp → (tick cfg s inp).notified = true) := by
  have hps : play_sound inp.audio = some () := by simp [play_sound, hdev, hdec]
  obtain ⟨hsm1, hint1⟩ := inputStep_core s inp.recv
  have hst := tick_state_eq cfg s inp
  have hacc := accumStep_core (inputStep s inp.recv).1 inp.elapsed_since_start
  refine ⟨⟨rfl, rfl⟩, ?_, ?_, ?_⟩
  · by_cases hb : (inputStep s inp.recv).2.1 = true
    · obtain ⟨heq, hnm⟩ := inputStep_brk s inp.recv hb
      rw [if_pos hb] at hst
      rw [hst, heq]
      rw [if_neg]
      rintro ⟨h1, _⟩
      exact hnm h1
    · rw [if_neg hb] at hst
      rw [hst, transitionStep_count, hacc.1, hacc.2.2.1, hsm1]
      split_ifs with h1
      · omega
      · rfl
  · by_cases hb : (inputStep s inp.recv).2.1 = true
    · obtain ⟨heq, _⟩ := inputStep_brk s inp.recv hb
      rw [if_pos hb] at hst
      rw [hst, heq]
      constructor
      · intro h
        exact absurd h hmode
      · rintro ⟨⟨_, hf, _⟩, _⟩
        rw [hb] at hf
        cases hf
    · rw [if_neg hb] at hst
      rw [hst]
      rw [transitionStep_End_iff cfg inp.audio _ hps
        (by rw [hacc.1, hsm1]; exact hmode)]
      unfold focusEndsNow
      rw [hacc.1, hsm1]
      constructor
      · rintro ⟨h1, h2, h3⟩
        exact ⟨⟨h1, by simpa using hb, h2⟩, h3⟩
      · rintro ⟨⟨h1, _, h2⟩, h3⟩
        exact ⟨h1, h2, h3⟩
  · rintro ⟨hf1, hf2, hf3⟩
    have hm2 : (accumStep (inputStep s inp.recv).1
        inp.elapsed_since_start).state_machine.mode = .Pomodoro := by
      rw [hacc.1, hsm1]; exact hf1
    have ht := transitionStep_focus_ends cfg inp.audio
      (accumStep (inputStep s inp.recv).1 inp.elapsed_since_start) hm2 hf3 hps
    unfold tick
    rcases hi : inputStep s inp.recv with ⟨s1, b1, outs⟩
    rw [hi] at hf2 ht
    simp only at hf2
    subst hf2
    rw [hi] at hst hacc hm2
    simp only [ht]
    cases h3 : renderStep ({ accumStep s1 inp.elapsed_since_start with
        state_machine := (accumStep s1 inp.elapsed_since_start).state_machine.next_state }) <;>
      simp [h3]

theorem focus_counter_and_done_iff_witness :
    ((tick { pomodoro_duration := 2, break_duration := 1 }
      { state_machine :=
          { pomodoro_count := 3, break_count := 3, max_pomodoros := 3,
            mode := .Pomodoro }
      , interval := { elapsed := 1000000000, duration := 2000000000 }
      , paused := false, acked := false }
      { recv := .timeout, elapsed_since_start := 1000000000,
        audio := { deviceOk := true, decodeOk := true }
        }).state.state_machine.mode = .End) ∧
    ((tick { pomodoro_duration := 2, break_duration := 1 }
      { state_machine :=
          { pomodoro_count := 3, break_count := 3, max_pomodoros := 3,
            mode := .Pomodoro }
      , interval := { elapsed := 1000000000, duration := 2000000000 }
      , paused := false, acked := false }
      { recv := .timeout, elapsed_since_start := 1000000000,
        audio := { deviceOk := true, decodeOk := true } }).notified = true) :=
  ⟨((focus_counter_and_done_iff 3 _ _ _ (by decide) rfl rfl
      (by decide)).2.2.1).2 ⟨⟨rfl, rfl, by decide⟩, rfl⟩,
    (focus_counter_and_done_iff 3 _ _ _ (by decide) rfl rfl
      (by decide)).2.2.2 ⟨rfl, rfl, by decide⟩⟩

end PomodoroRs
